import Mathlib

/-!
Verification of the reducer-based state-container examples of this repository.

The definitions below are a shallow embedding of the JavaScript source:

* `messengerReducer`, `initialState` (src/managing_state/ExtractingStateLogicIntoAReducer.js):
  the messenger state machine `{selectedId, messages}` with actions
  `changed_selection`, `edited_message`, `sent_message`.  A JS object with
  numeric keys is embedded as an association list `List (Nat × String)`;
  the object spread `{...m, [k]: v}` is `setKey`, property read is `lookupKey`.
* `tasksReducer`, `initialTasks` (src/managing_state/PassingDataDeeplyWithContext.js):
  the task-list reducer with actions `added`, `changed`, `deleted`.
* `useMyReducer` (ExtractingStateLogicIntoAReducer.js, lines 118-122): the
  hand-rolled container `dispatch = setState (fun prev => reducer prev action)`
  embedded as `Store`, `setState`, `dispatch`, `dispatchAll`.

A JS `throw` is embedded in `Except JsError`: the reducers' `default:` cases
throw `Error('Unknown action: ' + action.type)` (`JsError.unknownAction`), and
reading a member of `undefined` throws a TypeError (`JsError.typeError`).
Possibly-absent object fields are `Option` (`none` = `undefined`); the
`map`/`filter` callbacks evaluate lazily per element (`mapE`/`filterE`), as in
JS, so an absent `action.task` is only dereferenced when the callback runs.
-/

/-- A JS exception: either the reducers' own `Error('Unknown action: ...')`
or the TypeError raised by reading a property of `undefined`. -/
inductive JsError where
  | unknownAction (msg : String)
  | typeError
deriving DecidableEq, Repr

/-- Messenger state `{selectedId, messages}`; the `messages` object with
numeric keys is an association list. -/
structure MessengerState where
  selectedId : Nat
  messages : List (Nat × String)
deriving DecidableEq, Repr

/-- A messenger action object `{type, contactId?, message?}`.  The payload
fields are only read by the branch matching their `type`, mirroring the JS
object literals that carry exactly the payload their branch reads. -/
structure MessengerAction where
  type : String
  contactId : Nat
  message : String
deriving DecidableEq, Repr

/-- JS object property read `m[k]` on an object embedded as an association
list: value of the first binding of `k`, `none` when the key is absent. -/
def lookupKey : List (Nat × String) → Nat → Option String
  | [], _ => none
  | (k', v') :: rest, k => if k' = k then some v' else lookupKey rest k

/-- JS object spread update `{...m, [k]: v}`: an existing binding of `k` is
replaced in place, an absent key is appended at the end. -/
def setKey : List (Nat × String) → Nat → String → List (Nat × String)
  | [], k, v => [(k, v)]
  | (k', v') :: rest, k, v =>
    if k' = k then (k, v) :: rest else (k', v') :: setKey rest k v

/-- `initialState` of ExtractingStateLogicIntoAReducer.js:
`{selectedId: 0, messages: {0: ''}}`. -/
def initialState : MessengerState := ⟨0, [(0, "")]⟩

/-- `messengerReducer` of ExtractingStateLogicIntoAReducer.js: the `switch`
on `action.type` is an if-chain over the three case labels; the `default`
case throws `Error('Unknown action: ' + action.type)`. -/
def messengerReducer (state : MessengerState) (action : MessengerAction) :
    Except JsError MessengerState :=
  if action.type = "changed_selection" then
    Except.ok ⟨action.contactId, state.messages⟩
  else if action.type = "edited_message" then
    Except.ok ⟨state.selectedId, setKey state.messages state.selectedId action.message⟩
  else if action.type = "sent_message" then
    Except.ok ⟨state.selectedId, setKey state.messages state.selectedId ""⟩
  else
    Except.error (JsError.unknownAction ("Unknown action: " ++ action.type))

/-- A task record `{id, text, done}` of PassingDataDeeplyWithContext.js. -/
structure TaskItem where
  id : Nat
  text : String
  done : Bool
deriving DecidableEq, Repr

/-- A task action object.  `task` is `Option` because the Delete button of
the `TaskItem` component dispatches `{type: 'deleted', id}` without a `task`
field: `none` embeds that absent (`undefined`) field. -/
structure TaskAction where
  type : String
  id : Nat
  text : String
  task : Option TaskItem
deriving DecidableEq, Repr

/-- `Array.prototype.map` with a callback that may throw: the callback runs
once per element, left to right, and the first throw aborts the traversal.
On an empty array the callback never runs. -/
def mapE (f : α → Except ε β) : List α → Except ε (List β)
  | [] => Except.ok []
  | x :: xs => do
    let y ← f x
    let rest ← mapE f xs
    return y :: rest

/-- `Array.prototype.filter` with a callback that may throw, evaluated
lazily per element like `mapE`. -/
def filterE (p : α → Except ε Bool) : List α → Except ε (List α)
  | [] => Except.ok []
  | x :: xs => do
    let b ← p x
    let rest ← filterE p xs
    return if b then x :: rest else rest

/-- `tasksReducer` of PassingDataDeeplyWithContext.js.  The `changed` and
`deleted` callbacks read `action.task.id`; when `action.task` is absent
that member access throws a TypeError inside the callback. -/
def tasksReducer (tasks : List TaskItem) (action : TaskAction) :
    Except JsError (List TaskItem) :=
  if action.type = "added" then
    Except.ok (tasks ++ [⟨action.id, action.text, false⟩])
  else if action.type = "changed" then
    mapE (fun task =>
      match action.task with
      | none => Except.error JsError.typeError
      | some a => Except.ok (if task.id = a.id then a else task)) tasks
  else if action.type = "deleted" then
    filterE (fun task =>
      match action.task with
      | none => Except.error JsError.typeError
      | some a => Except.ok (decide (task.id ≠ a.id))) tasks
  else
    Except.error (JsError.unknownAction ("Unknown action: " ++ action.type))

/-- `initialTasks` of PassingDataDeeplyWithContext.js. -/
def initialTasks : List TaskItem :=
  [⟨0, "Philosopher’s Path", true⟩, ⟨1, "Visit the temple", false⟩,
   ⟨2, "Drink matcha", false⟩]

/-- The state container built by `useMyReducer`: `useState` holds one value. -/
structure Store (σ : Type) where
  state : σ

/-- `setState` applied with an updater function, as `useMyReducer` uses it. -/
def Store.setState (store : Store σ) (updater : σ → σ) : Store σ :=
  ⟨updater store.state⟩

/-- The `dispatch` of `useMyReducer`:
`(action) => setState(prev => reducer(prev, action))`. -/
def Store.dispatch (reducer : σ → α → σ) (store : Store σ) (action : α) :
    Store σ :=
  store.setState (fun prev => reducer prev action)

/-- Dispatching a list of actions in order through `Store.dispatch`. -/
def Store.dispatchAll (reducer : σ → α → σ) (store : Store σ)
    (actions : List α) : Store σ :=
  actions.foldl (Store.dispatch reducer) store

/-- Independent sequential replay of an action list: the left fold of the
reducer over the list, as the spec describes it.  Written from the spec's
words, to be compared with `Store.dispatchAll`. -/
def replay (reducer : σ → α → σ) (init : σ) (actions : List α) : σ :=
  actions.foldl reducer init

/-- Dispatch through a container whose reducer may throw: the updater is
built from the reducer's result, so when the reducer throws, `setState` is
never reached and the store keeps its pre-dispatch state; the error
propagates out (returned alongside the unchanged store). -/
def Store.dispatchTry (reducer : σ → α → Except JsError σ) (store : Store σ)
    (action : α) : Store σ × Option JsError :=
  match reducer store.state action with
  | Except.ok next => (store.setState (fun _ => next), none)
  | Except.error e => (store, some e)

-- Helper lemmas

theorem lookupKey_setKey (m : List (Nat × String)) (k j : Nat) (v : String) :
    lookupKey (setKey m k v) j = if j = k then some v else lookupKey m j := by
  induction m with
  | nil =>
    by_cases h : j = k <;> simp [setKey, lookupKey, h, Ne.symm]
  | cons p rest ih =>
    obtain ⟨k', v'⟩ := p
    by_cases hk : k' = k
    · subst hk
      by_cases h : j = k' <;> simp [setKey, lookupKey, h, Ne.symm]
    · by_cases h : k' = j
      · subst h
        have : ¬ k' = k := hk
        simp [setKey, lookupKey, hk, Ne.symm hk, ih]
      · simp [setKey, lookupKey, hk, h, ih]

theorem mapE_ok (f : α → β) (l : List α) :
    mapE (fun x => Except.ok (f x) : α → Except ε β) l = Except.ok (l.map f) := by
  induction l with
  | nil => simp [mapE]
  | cons x xs ih => simp [mapE, ih, List.map_cons, bind, Except.bind, pure, Except.pure]

theorem filterE_ok (q : α → Bool) (l : List α) :
    filterE (fun x => Except.ok (q x) : α → Except ε Bool) l =
      Except.ok (l.filter q) := by
  induction l with
  | nil => simp [filterE]
  | cons x xs ih =>
    simp [filterE, ih, bind, Except.bind, List.filter_cons, pure, Except.pure]

theorem map_id_of_no_match (t : TaskItem) (l : List TaskItem)
    (h : ∀ x ∈ l, x.id ≠ t.id) :
    l.map (fun x => if x.id = t.id then t else x) = l := by
  induction l with
  | nil => simp
  | cons x xs ih =>
    have hx := h x (List.mem_cons_self x xs)
    simp only [List.map_cons, if_neg hx, List.cons.injEq, true_and]
    exact ih (fun y hy => h y (List.mem_cons_of_mem x hy))

-- Branch-evaluation lemmas (shared)

theorem messengerReducer_sent_eq (s : MessengerState) (c : Nat) (m : String) :
    messengerReducer s ⟨"sent_message", c, m⟩ =
      Except.ok ⟨s.selectedId, setKey s.messages s.selectedId ""⟩ := rfl

theorem messengerReducer_edited_eq (s : MessengerState) (c : Nat) (m : String) :
    messengerReducer s ⟨"edited_message", c, m⟩ =
      Except.ok ⟨s.selectedId, setKey s.messages s.selectedId m⟩ := rfl

theorem messengerReducer_changed_eq (s : MessengerState) (c : Nat) (m : String) :
    messengerReducer s ⟨"changed_selection", c, m⟩ =
      Except.ok ⟨c, s.messages⟩ := rfl

theorem tasksReducer_added_eq (ts : List TaskItem) (i : Nat) (txt : String)
    (tk : Option TaskItem) :
    tasksReducer ts ⟨"added", i, txt, tk⟩ =
      Except.ok (ts ++ [⟨i, txt, false⟩]) := rfl

theorem tasksReducer_changed_some_eq (ts : List TaskItem) (t : TaskItem)
    (i : Nat) (txt : String) :
    tasksReducer ts ⟨"changed", i, txt, some t⟩ =
      Except.ok (ts.map (fun x => if x.id = t.id then t else x)) := by
  show mapE (fun task => Except.ok (if task.id = t.id then t else task)) ts = _
  exact mapE_ok _ ts

theorem tasksReducer_deleted_some_eq (ts : List TaskItem) (t : TaskItem)
    (i : Nat) (txt : String) :
    tasksReducer ts ⟨"deleted", i, txt, some t⟩ =
      Except.ok (ts.filter (fun x => decide (x.id ≠ t.id))) := by
  show filterE (fun task => Except.ok (decide (task.id ≠ t.id))) ts = _
  exact filterE_ok _ ts

-- Claim theorems

/-- C1: for every state and every action whose `type` is none of the
recognized cases, `messengerReducer` (resp. `tasksReducer`) throws
`Unknown action: <type>` rather than returning the state, and a dispatch
through the container leaves the store's state equal to its pre-dispatch
value: the failed transition has no effect. -/
theorem unknown_action_throws_and_preserves_state
    (s : MessengerState) (a : MessengerAction)
    (ts : List TaskItem) (b : TaskAction)
    (ha1 : a.type ≠ "changed_selection") (ha2 : a.type ≠ "edited_message")
    (ha3 : a.type ≠ "sent_message")
    (hb1 : b.type ≠ "added") (hb2 : b.type ≠ "changed")
    (hb3 : b.type ≠ "deleted") :
    messengerReducer s a =
        Except.error (JsError.unknownAction ("Unknown action: " ++ a.type))
    ∧ Store.dispatchTry messengerReducer ⟨s⟩ a =
        (⟨s⟩, some (JsError.unknownAction ("Unknown action: " ++ a.type)))
    ∧ tasksReducer ts b =
        Except.error (JsError.unknownAction ("Unknown action: " ++ b.type))
    ∧ Store.dispatchTry tasksReducer ⟨ts⟩ b =
        (⟨ts⟩, some (JsError.unknownAction ("Unknown action: " ++ b.type))) := by
  have hm : messengerReducer s a =
      Except.error (JsError.unknownAction ("Unknown action: " ++ a.type)) := by
    simp [messengerReducer, ha1, ha2, ha3]
  have ht : tasksReducer ts b =
      Except.error (JsError.unknownAction ("Unknown action: " ++ b.type)) := by
    simp [tasksReducer, hb1, hb2, hb3]
  exact ⟨hm, by simp [Store.dispatchTry, hm], ht, by simp [Store.dispatchTry, ht]⟩

/-- Witness for C1: the action type "bogus" on the initial states. -/
theorem unknown_action_throws_and_preserves_state_witness :
    Store.dispatchTry messengerReducer ⟨initialState⟩ ⟨"bogus", 0, ""⟩ =
      (⟨initialState⟩, some (JsError.unknownAction ("Unknown action: " ++ "bogus")))
    ∧ Store.dispatchTry tasksReducer ⟨initialTasks⟩ ⟨"bogus", 0, "", none⟩ =
      (⟨initialTasks⟩, some (JsError.unknownAction ("Unknown action: " ++ "bogus"))) := by
  obtain ⟨-, h2, -, h4⟩ :=
    unknown_action_throws_and_preserves_state initialState ⟨"bogus", 0, ""⟩
      initialTasks ⟨"bogus", 0, "", none⟩
      (by decide) (by decide) (by decide) (by decide) (by decide) (by decide)
  exact ⟨h2, h4⟩

/-- C2: for every reducer, initial state and finite action list, the state
of the `useMyReducer` container after dispatching the actions in order
equals the independent sequential replay: the left fold of the reducer over
the list from the initial state. -/
theorem dispatchAll_eq_replay {σ α : Type} (reducer : σ → α → σ)
    (actions : List α) :
    ∀ init : σ,
      (Store.dispatchAll reducer ⟨init⟩ actions).state =
        replay reducer init actions := by
  induction actions with
  | nil => intro init; rfl
  | cons a as ih =>
    intro init
    have h : Store.dispatchAll reducer ⟨init⟩ (a :: as) =
        Store.dispatchAll reducer ⟨reducer init a⟩ as := rfl
    rw [h, ih]
    rfl

/-- C3: `sent_message` keeps `selectedId` and rebinds key `selectedId` of
`messages` to the empty string, leaving every other key at its previous
value; on `{selectedId: 1, messages: {0: "hi"}}` the result is
`{selectedId: 1, messages: {0: "hi", 1: ""}}`, creating the entry for key 1. -/
theorem sent_message_resets_selected_entry (s : MessengerState) (c : Nat)
    (m : String) :
    (∃ r, messengerReducer s ⟨"sent_message", c, m⟩ = Except.ok r
      ∧ r.selectedId = s.selectedId
      ∧ ∀ k, lookupKey r.messages k =
          if k = s.selectedId then some "" else lookupKey s.messages k)
    ∧ messengerReducer ⟨1, [(0, "hi")]⟩ ⟨"sent_message", c, m⟩ =
        Except.ok ⟨1, [(0, "hi"), (1, "")]⟩ :=
  ⟨⟨⟨s.selectedId, setKey s.messages s.selectedId ""⟩,
    messengerReducer_sent_eq s c m, rfl,
    fun k => lookupKey_setKey s.messages s.selectedId k ""⟩, rfl⟩

/-- C4: from `initialState`, `edited_message "hi"` yields
`{selectedId: 0, messages: {0: "hi"}}`, and then `changed_selection 1`
yields `{selectedId: 1, messages: {0: "hi"}}`: the entry for key 0 is
preserved and no entry for key 1 exists. -/
theorem messenger_scenarios_one_two (c : Nat) (m : String) :
    messengerReducer initialState ⟨"edited_message", c, "hi"⟩ =
      Except.ok ⟨0, [(0, "hi")]⟩
    ∧ messengerReducer ⟨0, [(0, "hi")]⟩ ⟨"changed_selection", 1, m⟩ =
      Except.ok ⟨1, [(0, "hi")]⟩
    ∧ lookupKey [(0, "hi")] 0 = some "hi"
    ∧ lookupKey [(0, "hi")] 1 = none :=
  ⟨rfl, rfl, rfl, rfl⟩

/-- C5: `edited_message` keeps `selectedId` and rebinds key `selectedId` of
`messages` to the action's message, leaving every other key at its previous
value. -/
theorem edited_message_updates_selected_entry (s : MessengerState) (c : Nat)
    (m : String) :
    ∃ r, messengerReducer s ⟨"edited_message", c, m⟩ = Except.ok r
      ∧ r.selectedId = s.selectedId
      ∧ ∀ k, lookupKey r.messages k =
          if k = s.selectedId then some m else lookupKey s.messages k :=
  ⟨⟨s.selectedId, setKey s.messages s.selectedId m⟩,
    messengerReducer_edited_eq s c m, rfl,
    fun k => lookupKey_setKey s.messages s.selectedId k m⟩

/-- C6: `changed_selection` sets `selectedId` to the action's `contactId`
and returns the very same, unchanged `messages` map. -/
theorem changed_selection_frame (s : MessengerState) (c : Nat) (m : String) :
    ∃ r, messengerReducer s ⟨"changed_selection", c, m⟩ = Except.ok r
      ∧ r.selectedId = c
      ∧ r.messages = s.messages :=
  ⟨⟨c, s.messages⟩, messengerReducer_changed_eq s c m, rfl, rfl⟩

/-- C7: both reducers are deterministic as a two-run property: evaluating
the reducer twice on the same input (or on a structurally equal copy of it)
yields structurally equal results; in this functional embedding the inputs
cannot be mutated by the call. -/
theorem reducers_deterministic_two_run
    (s t : MessengerState) (a : MessengerAction)
    (ts us : List TaskItem) (b : TaskAction)
    (hs : s = t) (ht : ts = us) :
    messengerReducer s a = messengerReducer s a
    ∧ messengerReducer s a = messengerReducer t a
    ∧ tasksReducer ts b = tasksReducer ts b
    ∧ tasksReducer ts b = tasksReducer us b := by
  subst hs; subst ht
  exact ⟨rfl, rfl, rfl, rfl⟩

/-- Witness for C7: two runs on `initialState` and `initialTasks`. -/
theorem reducers_deterministic_two_run_witness :
    messengerReducer initialState ⟨"sent_message", 0, ""⟩ =
      messengerReducer initialState ⟨"sent_message", 0, ""⟩
    ∧ messengerReducer initialState ⟨"sent_message", 0, ""⟩ =
      messengerReducer initialState ⟨"sent_message", 0, ""⟩
    ∧ tasksReducer initialTasks ⟨"added", 4, "x", none⟩ =
      tasksReducer initialTasks ⟨"added", 4, "x", none⟩
    ∧ tasksReducer initialTasks ⟨"added", 4, "x", none⟩ =
      tasksReducer initialTasks ⟨"added", 4, "x", none⟩ :=
  reducers_deterministic_two_run initialState initialState
    ⟨"sent_message", 0, ""⟩ initialTasks initialTasks
    ⟨"added", 4, "x", none⟩ rfl rfl

/-- C8: for every task list, `deleted` with a `task` payload present
returns exactly the input list with every task whose `id` equals
`action.task.id` removed (the filter of the list, so order and multiplicity
of the rest are preserved: membership and sublist facts are included); but
on the action shape `{type: 'deleted', id}` the Delete button actually
dispatches (no `task` field), the reducer throws a TypeError from reading
`action.task.id` as soon as the filter callback runs, i.e. on every
non-empty list — and the Delete button only exists for a task of the list. -/
theorem deleted_filters_or_throws_on_missing_task
    (ts : List TaskItem) (t : TaskItem) (i : Nat) (txt : String) :
    tasksReducer ts ⟨"deleted", i, txt, some t⟩ =
        Except.ok (ts.filter (fun x => decide (x.id ≠ t.id)))
    ∧ (∀ x, x ∈ ts.filter (fun x => decide (x.id ≠ t.id)) ↔ x ∈ ts ∧ x.id ≠ t.id)
    ∧ List.Sublist (ts.filter (fun x => decide (x.id ≠ t.id))) ts
    ∧ (ts ≠ [] → tasksReducer ts ⟨"deleted", i, txt, none⟩ =
        Except.error JsError.typeError) := by
  refine ⟨tasksReducer_deleted_some_eq ts t i txt, ?_,
    List.filter_sublist ts, ?_⟩
  · intro x
    simp [List.mem_filter]
  · intro hne
    obtain ⟨x, xs, rfl⟩ := List.exists_cons_of_ne_nil hne
    rfl

/-- Witness for C8 on `initialTasks` and the task with id 1. -/
theorem deleted_filters_or_throws_on_missing_task_witness :
    tasksReducer initialTasks
        ⟨"deleted", 1, "", some ⟨1, "Visit the temple", false⟩⟩ =
      Except.ok [⟨0, "Philosopher’s Path", true⟩, ⟨2, "Drink matcha", false⟩]
    ∧ tasksReducer initialTasks ⟨"deleted", 1, "", none⟩ =
      Except.error JsError.typeError := by
  obtain ⟨h1, -, -, h4⟩ :=
    deleted_filters_or_throws_on_missing_task initialTasks
      ⟨1, "Visit the temple", false⟩ 1 ""
  exact ⟨by rw [h1]; rfl, h4 (by decide)⟩

/-- C9: `added` appends one task `{id, text, done: false}` to the end of
the list: the input is an unchanged prefix and the length grows by one. -/
theorem added_appends_new_task (ts : List TaskItem) (i : Nat) (txt : String)
    (tk : Option TaskItem) :
    tasksReducer ts ⟨"added", i, txt, tk⟩ =
      Except.ok (ts ++ [⟨i, txt, false⟩])
    ∧ (ts ++ [(⟨i, txt, false⟩ : TaskItem)]).length = ts.length + 1
    ∧ (ts ++ [(⟨i, txt, false⟩ : TaskItem)]).take ts.length = ts := by
  refine ⟨tasksReducer_added_eq ts i txt tk, by simp, ?_⟩
  simp [List.take_left]

/-- C10: `changed` with a present `task` payload keeps length and order,
replacing exactly the entries whose `id` equals `action.task.id` with the
payload task; when no entry matches, the result equals the input list — the
unmatched change is silently ignored. -/
theorem changed_replaces_matching_tasks (ts : List TaskItem) (t : TaskItem)
    (i : Nat) (txt : String) :
    ∃ r, tasksReducer ts ⟨"changed", i, txt, some t⟩ = Except.ok r
      ∧ r.length = ts.length
      ∧ (∀ j : Nat, r[j]? = (ts[j]?).map (fun x => if x.id = t.id then t else x))
      ∧ ((∀ x ∈ ts, x.id ≠ t.id) → r = ts) := by
  refine ⟨ts.map (fun x => if x.id = t.id then t else x),
    tasksReducer_changed_some_eq ts t i txt, by simp, ?_, map_id_of_no_match t ts⟩
  intro j
  simp [List.getElem?_map]

/-- Witness for C10: a `changed` action whose task id matches no entry
leaves the list unchanged. -/
theorem changed_replaces_matching_tasks_witness :
    tasksReducer [⟨0, "a", false⟩] ⟨"changed", 0, "", some ⟨5, "b", true⟩⟩ =
      Except.ok [⟨0, "a", false⟩] := by
  obtain ⟨r, hr, -, -, hid⟩ :=
    changed_replaces_matching_tasks [⟨0, "a", false⟩] ⟨5, "b", true⟩ 0 ""
  rw [hr, hid (by decide)]
